import Mathlib

/-!
Shallow embedding of the Anya shopping-guardian budget engine.

Sources embedded here:
* `app/agents/tools.py` — `AgentTools.set_saving_goal`, `get_active_goals`,
  `analyze_spending_pattern`, `check_budget_status`, `add_transaction`;
* `app/main.py` — `calc_month_nonessential_spend`, `evaluate_purchase`,
  `build_verdict_message`, the `/add-transaction` route `add_tx`.

Currency amounts (Python floats) are embedded as rationals `ℚ`; timestamps
(Python `datetime`) as a record compared lexicographically, exactly the
comparison semantics `datetime` uses. Per-user database state is passed
explicitly (a list of the transactions and a list of the goals of the user).
-/

/-- Python `datetime`: year/month/day plus the time of day collapsed into a
single `tod` field (`datetime` compares componentwise lexicographically, and
hour/minute/second/microsecond are only ever compared as a block here). -/
structure Timestamp where
  year : Nat
  month : Nat
  day : Nat
  tod : Nat
deriving DecidableEq

/-- Python `datetime` comparison `a <= b`: lexicographic on (year, month, day, tod). -/
def Timestamp.le (a b : Timestamp) : Bool :=
  if a.year ≠ b.year then a.year < b.year
  else if a.month ≠ b.month then a.month < b.month
  else if a.day ≠ b.day then a.day < b.day
  else a.tod ≤ b.tod

/-- The value `datetime(year=now.year, month=now.month, day=1)` as built in
`calc_month_nonessential_spend` and `analyze_spending_pattern`. -/
def Timestamp.monthStart (now : Timestamp) : Timestamp :=
  ⟨now.year, now.month, 1, 0⟩

/-- The value `now + timedelta(days=d)` (used only for goal deadlines; calendar rollover
is not modelled because no evaluated property depends on deadline values). -/
def Timestamp.addDays (t : Timestamp) (d : Nat) : Timestamp :=
  { t with day := t.day + d }

/-- Holds when `ts` lies in the calendar month containing `now` (same year and month). -/
def Timestamp.inCalendarMonth (ts now : Timestamp) : Prop :=
  ts.year = now.year ∧ ts.month = now.month

/-- Holds when `ts` lies in a calendar month strictly earlier than the month of `now`. -/
def Timestamp.inEarlierMonth (ts now : Timestamp) : Prop :=
  ts.year < now.year ∨ (ts.year = now.year ∧ ts.month < now.month)

/-- Python `str.upper` on one ASCII character (the category names the code
compares against are all ASCII). -/
def upperChar (c : Char) : Char :=
  if 97 ≤ c.toNat ∧ c.toNat ≤ 122 then Char.ofNat (c.toNat - 32) else c

/-- Python `str.upper` (ASCII). -/
def pyUpper (s : String) : String := String.mk (s.data.map upperChar)

/-- Modelled from the spec: `app/db/models.py` is not in the repository
snapshot; the spec fixes the category enum as the closed set
SHOPPING, FOOD, ENTERTAINMENT, TRANSPORT, BILLS, OTHER. -/
inductive TransactionCategory where
  | SHOPPING
  | FOOD
  | ENTERTAINMENT
  | TRANSPORT
  | BILLS
  | OTHER
deriving DecidableEq

/-- The `.value` of each enum member (the lowercase strings the code compares
against, e.g. `tx.category.value in ["shopping", "food", "entertainment"]`). -/
def TransactionCategory.value : TransactionCategory → String
  | .SHOPPING => "shopping"
  | .FOOD => "food"
  | .ENTERTAINMENT => "entertainment"
  | .TRANSPORT => "transport"
  | .BILLS => "bills"
  | .OTHER => "other"

/-- Python enum member name (uppercase), for name lookup `TransactionCategory[s]`. -/
def TransactionCategory.memberName : TransactionCategory → String
  | .SHOPPING => "SHOPPING"
  | .FOOD => "FOOD"
  | .ENTERTAINMENT => "ENTERTAINMENT"
  | .TRANSPORT => "TRANSPORT"
  | .BILLS => "BILLS"
  | .OTHER => "OTHER"

def TransactionCategory.members : List TransactionCategory :=
  [.SHOPPING, .FOOD, .ENTERTAINMENT, .TRANSPORT, .BILLS, .OTHER]

/-- Name lookup `TransactionCategory[s]` by member name, `none` for `KeyError`. -/
def TransactionCategory.ofName (s : String) : Option TransactionCategory :=
  TransactionCategory.members.find? (fun c => c.memberName == s)

/-- Modelled from the spec: `app/db/models.py` is not in the repository
snapshot; the spec fixes goal status as ACTIVE / COMPLETED / ABANDONED. -/
inductive GoalStatus where
  | ACTIVE
  | COMPLETED
  | ABANDONED
deriving DecidableEq

def GoalStatus.value : GoalStatus → String
  | .ACTIVE => "active"
  | .COMPLETED => "completed"
  | .ABANDONED => "abandoned"

/-- A row of the `transactions` table as used by `tools.py` (per-user state, so
`user_id` is implicit; `id` is the autoincrement primary key). -/
structure Transaction where
  amount : ℚ
  merchant : String
  category : TransactionCategory
  timestamp : Timestamp
deriving DecidableEq

/-- A row of the `goals` table as used by `tools.py` (per-user state).
`current_amount` defaults to zero per the spec data model. -/
structure Goal where
  id : Nat
  title : String
  target_amount : ℚ
  deadline : Option Timestamp
  month_nonessential_budget : Option ℚ
  status : GoalStatus
  current_amount : ℚ
deriving DecidableEq

/-- Modelled from the spec: the derived `progress_percentage` property of a
goal (`app/db/models.py` absent) — `current_amount / target_amount × 100`,
and 0 when `target_amount` is 0 to avoid division by zero. -/
def Goal.progress_percentage (g : Goal) : ℚ :=
  if g.target_amount = 0 then 0 else g.current_amount / g.target_amount * 100

/-- The dictionary returned by `set_saving_goal` (`deadline.isoformat()` is
abstracted to the timestamp value itself). -/
structure GoalRecord where
  goal_id : Nat
  title : String
  target_amount : ℚ
  deadline : Option Timestamp
  status : String
deriving DecidableEq

/-- Embeds `AgentTools.set_saving_goal`: builds a new `Goal` with `status=ACTIVE` and
adds it to the database (`db.add`; the autoincrement id is the row count).
Note Python `if deadline_days:` is falsy at both `None` and `0`. -/
def set_saving_goal (goals : List Goal) (now : Timestamp) (title : String)
    (target_amount : ℚ) (deadline_days : Option Nat)
    (month_nonessential_budget : Option ℚ) : List Goal × GoalRecord :=
  let deadline : Option Timestamp :=
    match deadline_days with
    | none => none
    | some d => if d = 0 then none else some (now.addDays d)
  let goal : Goal :=
    { id := goals.length
      title := title
      target_amount := target_amount
      deadline := deadline
      month_nonessential_budget := month_nonessential_budget
      status := .ACTIVE
      current_amount := 0 }
  (goals ++ [goal],
   { goal_id := goal.id
     title := goal.title
     target_amount := goal.target_amount
     deadline := goal.deadline
     status := goal.status.value })

/-- One entry of the list returned by `get_active_goals`. -/
structure GoalInfo where
  goal_id : Nat
  title : String
  target_amount : ℚ
  current_amount : ℚ
  progress_percentage : ℚ
  deadline : Option Timestamp
  month_nonessential_budget : Option ℚ
deriving DecidableEq

def goalToInfo (g : Goal) : GoalInfo :=
  { goal_id := g.id
    title := g.title
    target_amount := g.target_amount
    current_amount := g.current_amount
    progress_percentage := g.progress_percentage
    deadline := g.deadline
    month_nonessential_budget := g.month_nonessential_budget }

/-- Embeds `AgentTools.get_active_goals`: all goals with `status == ACTIVE`, rendered
as dictionaries. -/
def get_active_goals (goals : List Goal) : List GoalInfo :=
  (goals.filter (fun g => decide (g.status = GoalStatus.ACTIVE))).map goalToInfo

/-- The query `db.query(Goal).filter(status == ACTIVE).first()` used by
`analyze_spending_pattern` and `check_budget_status`. -/
def find_active_goal (goals : List Goal) : Option Goal :=
  goals.find? (fun g => decide (g.status = GoalStatus.ACTIVE))

/-- The non-essential category names, as the code writes them inline
(`["shopping", "food", "entertainment"]` in `tools.py`,
`("shopping", "food", "entertainment")` in `main.py`). -/
def nonessentialNames : List String := ["shopping", "food", "entertainment"]

/-- Python dict update `category_totals[category] += amount` (with the
`if category not in category_totals: category_totals[category] = 0.0`
guard): adds to the existing slot, else appends a new key at the end
(dict insertion order). -/
def updateTotals : List (String × ℚ) → String → ℚ → List (String × ℚ)
  | [], k, a => [(k, a)]
  | (k', v) :: rest, k, a =>
      if k' = k then (k', v + a) :: rest else (k', v) :: updateTotals rest k a

/-- Python dict lookup (`category_totals.get(c)`): `none` when absent. -/
def lookupTotal : List (String × ℚ) → String → Option ℚ
  | [], _ => none
  | (k', v) :: rest, k => if k' = k then some v else lookupTotal rest k

/-- The body of the `for tx in transactions:` loop of
`analyze_spending_pattern`, acting on the pair
(`category_totals`, `total_nonessential`). -/
def aggregateStep (acc : List (String × ℚ) × ℚ) (tx : Transaction) :
    List (String × ℚ) × ℚ :=
  let category := tx.category.value
  let m := updateTotals acc.1 category tx.amount
  let t := if category ∈ nonessentialNames then acc.2 + tx.amount else acc.2
  (m, t)

/-- The query `db.query(Transaction).filter(timestamp >= month_start).all()`
of `analyze_spending_pattern`. -/
def monthTransactions (txs : List Transaction) (now : Timestamp) : List Transaction :=
  txs.filter (fun tx => Timestamp.le now.monthStart tx.timestamp)

/-- The dictionary returned by `analyze_spending_pattern`. -/
structure SpendingAnalysis where
  total_nonessential : ℚ
  category_breakdown : List (String × ℚ)
  month_nonessential_budget : Option ℚ
  remaining_budget : Option ℚ
  transaction_count : Nat
deriving DecidableEq

/-- Embeds `AgentTools.analyze_spending_pattern`. Note the two Python truthiness
tests: `active_goal.month_nonessential_budget if active_goal else None`
(an ORM object is truthy iff present) and
`(budget - total_nonessential) if budget else None`
(falsy at both `None` and `0.0`). -/
def analyze_spending_pattern (txs : List Transaction) (now : Timestamp)
    (goals : List Goal) : SpendingAnalysis :=
  let transactions := monthTransactions txs now
  let acc := transactions.foldl aggregateStep ([], 0)
  let active_goal := find_active_goal goals
  let budget : Option ℚ :=
    match active_goal with
    | none => none
    | some g => g.month_nonessential_budget
  let remaining_budget : Option ℚ :=
    match budget with
    | none => none
    | some b => if b = 0 then none else some (b - acc.2)
  { total_nonessential := acc.2
    category_breakdown := acc.1
    month_nonessential_budget := budget
    remaining_budget := remaining_budget
    transaction_count := transactions.length }

/-- The two shapes of dictionary `check_budget_status` returns: the NO_GOAL
sentinel (verdict and message only) or a full status row. -/
inductive BudgetStatus where
  | noGoal (message : String)
  | status (verdict label : String) (total_spent budget remaining saving_goal : ℚ)
      (goal_title : String)
deriving DecidableEq

def BudgetStatus.verdict : BudgetStatus → String
  | .noGoal _ => "NO_GOAL"
  | .status v _ _ _ _ _ _ => v

def BudgetStatus.budgetVal : BudgetStatus → Option ℚ
  | .noGoal _ => none
  | .status _ _ _ b _ _ _ => some b

def BudgetStatus.remainingVal : BudgetStatus → Option ℚ
  | .noGoal _ => none
  | .status _ _ _ _ r _ _ => some r

/-- Embeds `AgentTools.check_budget_status`. `threshold` stands for
`settings.comfort_zone_threshold`. Python `or 0` coalesces a falsy budget
(`None`, and `0.0` which maps to the same number) to `0`, i.e. `getD 0`. -/
def check_budget_status (txs : List Transaction) (now : Timestamp)
    (goals : List Goal) (threshold : ℚ) : BudgetStatus :=
  let spending := analyze_spending_pattern txs now goals
  match find_active_goal goals with
  | none => .noGoal "No active goal set"
  | some active_goal =>
      let total_spent := spending.total_nonessential
      let budget := active_goal.month_nonessential_budget.getD 0
      let remaining := budget - total_spent
      let saving_goal := active_goal.target_amount
      if remaining ≥ saving_goal * threshold then
        .status "GREEN" "on track" total_spent budget remaining saving_goal
          active_goal.title
      else if remaining ≥ 0 then
        .status "ORANGE" "borderline" total_spent budget remaining saving_goal
          active_goal.title
      else
        .status "RED" "over budget" total_spent budget remaining saving_goal
          active_goal.title

/-- Modelled from the spec: `app/config.py` (the `settings` object) is not in
the repository snapshot; the spec fixes `comfort_zone_threshold` as "a
configurable fraction, default 0.5". -/
def comfort_zone_threshold : ℚ := 1/2

/-- The lookup `TransactionCategory[category.upper()]` with the `except KeyError:` fall
back to `TransactionCategory.OTHER` in `add_transaction`. -/
def parseCategory (s : String) : TransactionCategory :=
  match TransactionCategory.ofName (pyUpper s) with
  | some c => c
  | none => .OTHER

/-- The dictionary returned by `add_transaction` (`timestamp.isoformat()`
abstracted to the timestamp value itself; `transaction_id` is the
autoincrement primary key, the row count here). -/
structure TransactionRecord where
  transaction_id : Nat
  amount : ℚ
  merchant : String
  category : String
  timestamp : Timestamp
deriving DecidableEq

/-- Embeds `AgentTools.add_transaction`: parses the category, appends the row
(`db.add`/`commit`), returns the canonical record. The server-assigned
timestamp (the column default `datetime.utcnow`) is the `now` argument. -/
def add_transaction (txs : List Transaction) (amount : ℚ) (merchant : String)
    (category : String) (now : Timestamp) : List Transaction × TransactionRecord :=
  let t : Transaction :=
    { amount := amount
      merchant := merchant
      category := parseCategory category
      timestamp := now }
  (txs ++ [t],
   { transaction_id := txs.length
     amount := t.amount
     merchant := t.merchant
     category := t.category.value
     timestamp := t.timestamp })

/-- A transaction as `main.py` sees it: a dictionary whose `category` is the
raw request string (no enum validation on this code path). -/
structure Tx where
  amount : ℚ
  merchant : String
  category : String
  timestamp : Timestamp
deriving DecidableEq

/-- The user record of `main.py` once `update_goal` has run: both goal fields
are numbers (`evaluate_purchase` reads them without a null check). -/
structure MainUser where
  month_saving_goal : ℚ
  month_nonessential_budget : ℚ
deriving DecidableEq

/-- The body of the `for tx in txs:` loop of `calc_month_nonessential_spend`. -/
def monthSpendStep (month_start : Timestamp) (total : ℚ) (tx : Tx) : ℚ :=
  if Timestamp.le month_start tx.timestamp ∧ tx.category ∈ nonessentialNames then
    total + tx.amount
  else total

/-- Embeds `main.calc_month_nonessential_spend` (the `now` the route obtains from
`datetime.utcnow()` is passed explicitly). -/
def calc_month_nonessential_spend (txs : List Tx) (now : Timestamp) : ℚ :=
  let month_start := now.monthStart
  txs.foldl (monthSpendStep month_start) 0

/-- Embeds `main.evaluate_purchase`: verdict, label and remaining-after. `0.5` in the
source is the rational 1/2. -/
def evaluate_purchase (user : MainUser) (tx : Tx)
    (month_spend_nonessential_before : ℚ) : String × String × ℚ :=
  let nonessential_budget := user.month_nonessential_budget
  let remaining_before := nonessential_budget - month_spend_nonessential_before
  let remaining_after := remaining_before - tx.amount
  if remaining_after ≥ user.month_saving_goal * (1/2 : ℚ) then
    ("GREEN", "probably okay for your saving goal", remaining_after)
  else if remaining_after ≥ 0 then
    ("ORANGE", "borderline for your saving goal", remaining_after)
  else
    ("RED", "hurting your saving goal this month", remaining_after)

/-- The lookup `emoji_map.get(verdict, "⚪")` in `build_verdict_message`. -/
def emojiFor (verdict : String) : String :=
  if verdict = "GREEN" then "🟢"
  else if verdict = "ORANGE" then "🟠"
  else if verdict = "RED" then "🔴"
  else "⚪"

/-- Python numeric string interpolation (`{x}` / `{x:.0f}`) abstracted to a
canonical rendering of the rational value: the verified properties concern
which value is rendered, not its digit format. -/
def fmtAmount (q : ℚ) : String := toString q

/-- Embeds `main.build_verdict_message`. The displayed remaining budget is
`max(remaining_after, 0)` exactly as in the source f-string. -/
def build_verdict_message (user : MainUser) (tx : Tx) (verdict label : String)
    (remaining_after : ℚ) : String :=
  let emoji := emojiFor verdict
  let month_goal := user.month_saving_goal
  emoji ++ " You just spent ₹" ++ fmtAmount tx.amount ++ " on " ++ tx.merchant ++
    ".\n" ++
    "This month you want to save ₹" ++ fmtAmount month_goal ++ ".\n" ++
    "Based on your current spending, this purchase is " ++ label ++ ".\n\n" ++
    "Approx. non-essential budget left this month after this: ₹" ++
    fmtAmount (max remaining_after 0) ++ ".\n" ++
    "If you want, we can adjust something else to keep you on track. 💸"

/-- The JSON body returned by the `/add-transaction` route (the fields the
evaluated properties concern). -/
structure AddTxResponse where
  ok : Bool
  transaction : Tx
  verdict : String
  verdict_label : String
  month_spend_nonessential_before : ℚ
  remaining_nonessential_budget_after : ℚ
  notification_message : String
deriving DecidableEq

/-- The `/add-transaction` route `add_tx` of `main.py` (steps 1 to 5), for a
user that exists. The persistence helper `app/storage.add_transaction` is not
in the repository snapshot; modelled from the spec: it "appends an immutable
transaction record with a server-assigned timestamp; returns the canonical
record". -/
def add_tx (user : MainUser) (txs : List Tx) (amount : ℚ) (merchant : String)
    (category : String) (now : Timestamp) : List Tx × AddTxResponse :=
  let tx : Tx := { amount := amount, merchant := merchant, category := category,
                   timestamp := now }
  let txs1 := txs ++ [tx]
  let month_spend_total := calc_month_nonessential_spend txs1 now
  let month_spend_before := month_spend_total - amount
  let r := evaluate_purchase user tx month_spend_before
  let verdict_message := build_verdict_message user tx r.1 r.2.1 r.2.2
  (txs1,
   { ok := true
     transaction := tx
     verdict := r.1
     verdict_label := r.2.1
     month_spend_nonessential_before := month_spend_before
     remaining_nonessential_budget_after := r.2.2
     notification_message := verdict_message })

/- Concrete fixtures used by witnesses and counterexamples. -/

/-- Timestamp 2024-05-15, the reference "now" of the concrete scenarios. -/
def ts0 : Timestamp := ⟨2024, 5, 15, 0⟩

/-- An active goal with target 10000 and monthly budget 5000. -/
def goalA : Goal :=
  { id := 0, title := "Buy a laptop", target_amount := 10000, deadline := none,
    month_nonessential_budget := some 5000, status := .ACTIVE, current_amount := 0 }

/-- An active goal with target 10000 and no configured monthly budget. -/
def goalNB : Goal :=
  { id := 0, title := "Trip", target_amount := 10000, deadline := none,
    month_nonessential_budget := none, status := .ACTIVE, current_amount := 0 }

/-- An active goal with target 10000 and monthly budget exactly 0. -/
def goalZ : Goal :=
  { id := 0, title := "Trip", target_amount := 10000, deadline := none,
    month_nonessential_budget := some 0, status := .ACTIVE, current_amount := 0 }

/- ------------------------------------------------------------------ -/
/- Helper lemmas                                                      -/
/- ------------------------------------------------------------------ -/

theorem monthStart_le_of_inCalendarMonth (ts now : Timestamp)
    (h : ts.inCalendarMonth now) (hd : 1 ≤ ts.day) :
    Timestamp.le now.monthStart ts = true := by
  obtain ⟨hy, hm⟩ := h
  simp only [Timestamp.le, Timestamp.monthStart, hy, hm, ne_eq, not_true_eq_false,
    if_false]
  split
  · simp only [decide_eq_true_eq]; omega
  · simp

theorem not_monthStart_le_of_inEarlierMonth (ts now : Timestamp)
    (h : ts.inEarlierMonth now) :
    Timestamp.le now.monthStart ts = false := by
  rcases h with hy | ⟨hy, hm⟩
  · simp only [Timestamp.le, Timestamp.monthStart]
    rw [if_pos (by omega)]
    simp only [decide_eq_false_iff_not]
    omega
  · simp only [Timestamp.le, Timestamp.monthStart, hy]
    rw [if_neg (by omega), if_pos (by omega)]
    simp only [decide_eq_false_iff_not]
    omega

/-- The monthly-spend loop with an arbitrary initial accumulator. -/
theorem foldl_monthSpendStep_init (ms : Timestamp) (txs : List Tx) (x : ℚ) :
    txs.foldl (monthSpendStep ms) x = x + txs.foldl (monthSpendStep ms) 0 := by
  induction txs generalizing x with
  | nil => simp
  | cons t ts ih =>
      simp only [List.foldl_cons]
      rw [ih (monthSpendStep ms x t), ih (monthSpendStep ms 0 t)]
      unfold monthSpendStep
      split <;> ring

/- ------------------------------------------------------------------ -/
/- C1                                                                 -/
/- ------------------------------------------------------------------ -/

/-- C1: for a user with an active goal carrying budget `B` and target `T`,
and monthly non-essential total `S` (all non-negative, positive threshold),
`check_budget_status` computes `remaining = B - S` and yields GREEN iff
`remaining ≥ T·threshold`, ORANGE iff `0 ≤ remaining < T·threshold`, RED iff
`remaining < 0`; both boundaries resolve to the better tier. -/
theorem check_budget_status_tier_iff
    (txs : List Transaction) (now : Timestamp) (goals : List Goal) (g : Goal)
    (B T S th : ℚ)
    (hg : find_active_goal goals = some g)
    (hB : g.month_nonessential_budget = some B)
    (hT : g.target_amount = T)
    (hS : (analyze_spending_pattern txs now goals).total_nonessential = S)
    (hB0 : 0 ≤ B) (hT0 : 0 ≤ T) (hS0 : 0 ≤ S) (hth : 0 < th) :
    ((check_budget_status txs now goals th).verdict = "GREEN" ↔ B - S ≥ T * th)
    ∧ ((check_budget_status txs now goals th).verdict = "ORANGE" ↔
        0 ≤ B - S ∧ B - S < T * th)
    ∧ ((check_budget_status txs now goals th).verdict = "RED" ↔ B - S < 0)
    ∧ (B - S = T * th → (check_budget_status txs now goals th).verdict = "GREEN")
    ∧ (0 < T → B - S = 0 →
        (check_budget_status txs now goals th).verdict = "ORANGE") := by
  have hTth : 0 ≤ T * th := mul_nonneg hT0 hth.le
  have hcbs : check_budget_status txs now goals th =
      if B - S ≥ T * th then
        .status "GREEN" "on track" S B (B - S) T g.title
      else if B - S ≥ 0 then
        .status "ORANGE" "borderline" S B (B - S) T g.title
      else
        .status "RED" "over budget" S B (B - S) T g.title := by
    simp only [check_budget_status, hg, hB, hT, hS, Option.getD_some]
  rw [hcbs]
  split_ifs with h1 h2
  · refine ⟨⟨fun _ => h1, fun _ => rfl⟩, ?_, ?_, fun _ => rfl, ?_⟩
    · simp only [BudgetStatus.verdict]
      constructor
      · intro h; exact absurd h (by decide)
      · intro ⟨_, hlt⟩; exact absurd h1 (not_le.mpr hlt)
    · simp only [BudgetStatus.verdict]
      constructor
      · intro h; exact absurd h (by decide)
      · intro hlt; exact absurd hlt (by linarith)
    · intro hpos hr
      exfalso
      have := mul_pos hpos hth
      rw [hr] at h1
      linarith
  · refine ⟨?_, ⟨fun _ => ⟨h2, not_le.mp h1⟩, fun _ => rfl⟩, ?_, ?_, fun _ _ => rfl⟩
    · simp only [BudgetStatus.verdict]
      constructor
      · intro h; exact absurd h (by decide)
      · intro hge; exact absurd hge h1
    · simp only [BudgetStatus.verdict]
      constructor
      · intro h; exact absurd h (by decide)
      · intro hlt; exact absurd h2 (not_le.mpr hlt)
    · intro heq; exfalso; exact h1 (ge_of_eq heq)
  · have hneg : B - S < 0 := not_le.mp h2
    refine ⟨?_, ?_, ⟨fun _ => hneg, fun _ => rfl⟩, ?_, ?_⟩
    · simp only [BudgetStatus.verdict]
      constructor
      · intro h; exact absurd h (by decide)
      · intro hge; exact absurd hge h1
    · simp only [BudgetStatus.verdict]
      constructor
      · intro h; exact absurd h (by decide)
      · intro ⟨hle, _⟩; exact absurd hle (not_le.mpr hneg)
    · intro heq; exfalso; rw [heq] at hneg; linarith
    · intro _ heq; exfalso; rw [heq] at hneg; linarith

/-- C1 witness: scenario 1 of the spec — budget 5000, target 10000, no
spending this month; `remaining = 5000 ≥ 10000·(1/2)` is the exact GREEN
boundary and resolves to GREEN. -/
theorem check_budget_status_tier_iff_witness :
    (check_budget_status [] ts0 [goalA] comfort_zone_threshold).verdict = "GREEN" :=
  (check_budget_status_tier_iff [] ts0 [goalA] goalA 5000 10000 0
      comfort_zone_threshold
      (by simp [find_active_goal, List.find?, goalA])
      (by simp [goalA]) (by simp [goalA])
      (by simp [analyze_spending_pattern, monthTransactions])
      (by norm_num) (by norm_num) (by norm_num)
      (by norm_num [comfort_zone_threshold])).2.2.2.1
    (by norm_num [comfort_zone_threshold])

/- ------------------------------------------------------------------ -/
/- C2                                                                 -/
/- ------------------------------------------------------------------ -/

/-- C2: for a goal whose budget and target coincide with the `main.py` user
record, the prospective evaluation (`evaluate_purchase` on the monthly total
`Tb` before a candidate transaction) yields the same verdict tier as the
retrospective evaluation (`check_budget_status` once the persisted monthly
total is `Tb + tx.amount`). -/
theorem prospective_retrospective_agree
    (txs : List Transaction) (now : Timestamp) (goals : List Goal) (g : Goal)
    (user : MainUser) (tx : Tx) (Tb : ℚ)
    (hg : find_active_goal goals = some g)
    (hB : g.month_nonessential_budget = some user.month_nonessential_budget)
    (hT : g.target_amount = user.month_saving_goal)
    (hS : (analyze_spending_pattern txs now goals).total_nonessential
            = Tb + tx.amount) :
    (evaluate_purchase user tx Tb).1 =
      (check_budget_status txs now goals comfort_zone_threshold).verdict := by
  simp only [check_budget_status, hg, hB, hT, hS, Option.getD_some,
    comfort_zone_threshold, evaluate_purchase]
  have key : user.month_nonessential_budget - Tb - tx.amount
      = user.month_nonessential_budget - (Tb + tx.amount) := by ring
  rw [key]
  split_ifs <;> rfl

/-- C2 witness: scenario 5 of the spec — budget 5000, target 10000, monthly
total before 4000, candidate amount 900; prospectively and retrospectively
(persisted total 4900) the tier is the same. -/
theorem prospective_retrospective_agree_witness :
    (evaluate_purchase ⟨10000, 5000⟩ ⟨900, "store", "shopping", ts0⟩ 4000).1 =
      (check_budget_status [⟨4900, "store", .SHOPPING, ⟨2024, 5, 10, 0⟩⟩] ts0
        [goalA] comfort_zone_threshold).verdict :=
  prospective_retrospective_agree
    [⟨4900, "store", .SHOPPING, ⟨2024, 5, 10, 0⟩⟩] ts0 [goalA] goalA
    ⟨10000, 5000⟩ ⟨900, "store", "shopping", ts0⟩ 4000
    (by simp [find_active_goal, List.find?, goalA])
    (by simp [goalA]) (by simp [goalA])
    (by norm_num [analyze_spending_pattern, monthTransactions, aggregateStep,
      updateTotals, nonessentialNames, Timestamp.le, Timestamp.monthStart,
      TransactionCategory.value, ts0])

/- ------------------------------------------------------------------ -/
/- C3                                                                 -/
/- ------------------------------------------------------------------ -/

/-- C3 counterexample: a user state with an active goal whose monthly budget
is absent (`None`). The claim says this must yield the NO_GOAL sentinel, but
`check_budget_status` coalesces the missing budget to 0 and returns the
numeric tier ORANGE. -/
theorem check_budget_status_missing_budget_counterexample :
    (check_budget_status [] ts0 [goalNB] comfort_zone_threshold).verdict = "ORANGE"
    ∧ (check_budget_status [] ts0 [goalNB] comfort_zone_threshold).verdict
        ≠ "NO_GOAL" := by
  have h : (check_budget_status [] ts0 [goalNB] comfort_zone_threshold).verdict
      = "ORANGE" := by
    norm_num [check_budget_status, find_active_goal, List.find?, goalNB,
      analyze_spending_pattern, monthTransactions, comfort_zone_threshold,
      BudgetStatus.verdict]
  exact ⟨h, by rw [h]; decide⟩

/-- C3 amended: `check_budget_status` returns the NO_GOAL sentinel (the bare
`{"verdict": "NO_GOAL", "message": "No active goal set"}` record, before any
arithmetic) if and only if the user has no active goal; an active goal whose
monthly budget is absent is instead coalesced to budget 0 and produces a
numeric GREEN/ORANGE/RED verdict. -/
theorem check_budget_status_NO_GOAL_iff
    (txs : List Transaction) (now : Timestamp) (goals : List Goal) (th : ℚ) :
    ((check_budget_status txs now goals th).verdict = "NO_GOAL" ↔
      find_active_goal goals = none)
    ∧ (check_budget_status txs now goals th
        = BudgetStatus.noGoal "No active goal set" ↔
      find_active_goal goals = none) := by
  cases hg : find_active_goal goals with
  | none => simp [check_budget_status, hg, BudgetStatus.verdict]
  | some g =>
      simp only [check_budget_status, hg]
      refine ⟨⟨?_, ?_⟩, ⟨?_, ?_⟩⟩
      · intro h
        exfalso
        split_ifs at h <;> simp [BudgetStatus.verdict] at h
      · intro h
        simp at h
      · intro h
        exfalso
        split_ifs at h <;> simp at h
      · intro h
        simp at h

/- ------------------------------------------------------------------ -/
/- C4                                                                 -/
/- ------------------------------------------------------------------ -/

/-- C4 counterexample: with "now" 2024-05-15, a non-essential transaction
time-stamped 2024-06-01 — outside the calendar month containing now — does
contribute to the monthly total, because the aggregation filter
`timestamp >= month_start` has no upper bound. -/
theorem calc_counts_later_month_tx :
    calc_month_nonessential_spend [⟨100, "m", "shopping", ⟨2024, 6, 1, 0⟩⟩] ts0 = 100
    ∧ ¬ Timestamp.inCalendarMonth ⟨2024, 6, 1, 0⟩ ts0 := by
  constructor
  · norm_num [calc_month_nonessential_spend, monthSpendStep, Timestamp.le,
      Timestamp.monthStart, nonessentialNames, ts0]
  · simp [Timestamp.inCalendarMonth, ts0]

/-- C4 amended: the monthly aggregation counts exactly the transactions whose
timestamp is at or after the first instant of the calendar month containing
now — a transaction from an earlier month never contributes, a non-essential
transaction inside the calendar month always contributes — but the window has
no upper bound (later-month transactions also pass the filter, as the
counterexample shows). -/
theorem calc_month_window_lower_bound_only (now : Timestamp) (tx : Tx)
    (txs : List Tx) :
    (tx.timestamp.inEarlierMonth now →
      calc_month_nonessential_spend (tx :: txs) now
        = calc_month_nonessential_spend txs now)
    ∧ (tx.timestamp.inCalendarMonth now → 1 ≤ tx.timestamp.day →
      calc_month_nonessential_spend (tx :: txs) now
        = (if tx.category ∈ nonessentialNames then tx.amount else 0)
          + calc_month_nonessential_spend txs now) := by
  constructor
  · intro h
    have hle := not_monthStart_le_of_inEarlierMonth tx.timestamp now h
    simp only [calc_month_nonessential_spend, List.foldl_cons]
    have hstep : monthSpendStep now.monthStart 0 tx = 0 := by
      simp [monthSpendStep, hle]
    rw [hstep]
  · intro hm hd
    have hle := monthStart_le_of_inCalendarMonth tx.timestamp now hm hd
    simp only [calc_month_nonessential_spend, List.foldl_cons]
    rw [foldl_monthSpendStep_init]
    have hstep : monthSpendStep now.monthStart 0 tx
        = (if tx.category ∈ nonessentialNames then tx.amount else 0) := by
      simp [monthSpendStep, hle]
    rw [hstep]

/-- C4 witness: with now 2024-05-15, an April transaction is excluded and an
in-month May transaction is counted. -/
theorem calc_month_window_lower_bound_only_witness :
    calc_month_nonessential_spend [⟨50, "m", "shopping", ⟨2024, 4, 30, 0⟩⟩] ts0
      = calc_month_nonessential_spend [] ts0
    ∧ calc_month_nonessential_spend [⟨70, "m", "food", ⟨2024, 5, 2, 0⟩⟩] ts0
      = (if "food" ∈ nonessentialNames then (70 : ℚ) else 0)
        + calc_month_nonessential_spend [] ts0 :=
  ⟨(calc_month_window_lower_bound_only ts0 ⟨50, "m", "shopping", ⟨2024, 4, 30, 0⟩⟩
      []).1 (by simp [Timestamp.inEarlierMonth, ts0]),
   (calc_month_window_lower_bound_only ts0 ⟨70, "m", "food", ⟨2024, 5, 2, 0⟩⟩
      []).2 (by simp [Timestamp.inCalendarMonth, ts0]) (by norm_num)⟩

/- ------------------------------------------------------------------ -/
/- C5                                                                 -/
/- ------------------------------------------------------------------ -/

/-- Sum of the amounts of the transactions of category value `c` in `L`. -/
def catSum (c : String) (L : List Transaction) : ℚ :=
  ((L.filter (fun tx => decide (tx.category.value = c))).map Transaction.amount).sum

/-- Sum of the amounts of the non-essential transactions in `L`. -/
def nonessSum (L : List Transaction) : ℚ :=
  ((L.filter (fun tx => decide (tx.category.value ∈ nonessentialNames))).map
    Transaction.amount).sum

theorem catSum_cons (c : String) (tx : Transaction) (L : List Transaction) :
    catSum c (tx :: L)
      = (if tx.category.value = c then tx.amount else 0) + catSum c L := by
  simp only [catSum, List.filter_cons]
  split_ifs with h <;> simp_all

theorem nonessSum_cons (tx : Transaction) (L : List Transaction) :
    nonessSum (tx :: L)
      = (if tx.category.value ∈ nonessentialNames then tx.amount else 0)
        + nonessSum L := by
  simp only [nonessSum, List.filter_cons]
  split_ifs with h <;> simp_all

/-- Dict update/lookup interaction for the `category_totals` dictionary. -/
theorem lookupTotal_updateTotals (m : List (String × ℚ)) (k : String) (a : ℚ)
    (c : String) :
    lookupTotal (updateTotals m k a) c
      = if c = k then some ((lookupTotal m k).getD 0 + a) else lookupTotal m c := by
  induction m with
  | nil =>
      by_cases h : c = k
      · subst h
        simp [updateTotals, lookupTotal]
      · rw [if_neg h]
        simp only [updateTotals, lookupTotal]
        rw [if_neg (fun hh => h hh.symm)]
  | cons p rest ih =>
      obtain ⟨k', v⟩ := p
      by_cases h1 : k' = k
      · subst h1
        by_cases h2 : c = k' <;> simp [updateTotals, lookupTotal, h2, eq_comm]
      · by_cases h2 : k' = c
        · subst h2
          simp [updateTotals, lookupTotal, h1, Ne.symm h1]
        · simp [updateTotals, lookupTotal, h1, h2, ih]

/-- The running non-essential total of the aggregation loop. -/
theorem aggregate_total (L : List Transaction) (m0 : List (String × ℚ)) (t0 : ℚ) :
    (L.foldl aggregateStep (m0, t0)).2 = t0 + nonessSum L := by
  induction L generalizing m0 t0 with
  | nil => simp [nonessSum]
  | cons tx L ih =>
      simp only [List.foldl_cons]
      rw [ih, nonessSum_cons]
      simp only [aggregateStep]
      split_ifs <;> ring

/-- The running per-category dictionary of the aggregation loop. -/
theorem aggregate_lookup (L : List Transaction) (m0 : List (String × ℚ)) (t0 : ℚ)
    (c : String) :
    lookupTotal (L.foldl aggregateStep (m0, t0)).1 c
      = match lookupTotal m0 c with
        | some v => some (v + catSum c L)
        | none =>
            if c ∈ L.map (fun tx => tx.category.value) then some (catSum c L)
            else none := by
  induction L generalizing m0 t0 with
  | nil =>
      cases h : lookupTotal m0 c <;> simp [h, catSum]
  | cons tx L ih =>
      simp only [List.foldl_cons]
      rw [ih]
      have hup := lookupTotal_updateTotals m0 tx.category.value tx.amount c
      by_cases hc : c = tx.category.value
      · subst hc
        rw [show (aggregateStep (m0, t0) tx).1
              = updateTotals m0 tx.category.value tx.amount from rfl, hup]
        simp only [if_pos rfl]
        cases h0 : lookupTotal m0 tx.category.value <;>
          simp [h0, catSum_cons, List.mem_cons] <;> ring
      · have hc' : tx.category.value ≠ c := fun h => hc h.symm
        rw [show (aggregateStep (m0, t0) tx).1
              = updateTotals m0 tx.category.value tx.amount from rfl, hup]
        rw [if_neg hc]
        cases h0 : lookupTotal m0 c <;>
          simp [h0, catSum_cons, List.mem_cons, hc, hc']

/-- C5: over the in-window transactions, `analyze_spending_pattern` reports a
non-essential total equal to the sum of the shopping/food/entertainment
amounts, a per-category dictionary assigning to exactly the categories that
appear their amount sums, and a count equal to the number of in-window
transactions; an empty window yields zero total, empty dictionary, zero
count (and, the function being total, no error). -/
theorem analyze_spending_pattern_aggregation
    (txs : List Transaction) (now : Timestamp) (goals : List Goal) :
    (analyze_spending_pattern txs now goals).total_nonessential
        = nonessSum (monthTransactions txs now)
    ∧ (∀ c : String,
        lookupTotal (analyze_spending_pattern txs now goals).category_breakdown c
          = if c ∈ (monthTransactions txs now).map (fun tx => tx.category.value)
            then some (catSum c (monthTransactions txs now))
            else none)
    ∧ (analyze_spending_pattern txs now goals).transaction_count
        = (monthTransactions txs now).length
    ∧ (monthTransactions txs now = [] →
        (analyze_spending_pattern txs now goals).total_nonessential = 0
        ∧ (analyze_spending_pattern txs now goals).category_breakdown = []
        ∧ (analyze_spending_pattern txs now goals).transaction_count = 0) := by
  refine ⟨?_, ?_, rfl, ?_⟩
  · simpa [analyze_spending_pattern] using
      aggregate_total (monthTransactions txs now) [] 0
  · intro c
    have h := aggregate_lookup (monthTransactions txs now) [] 0 c
    simpa [analyze_spending_pattern, lookupTotal] using h
  · intro h
    simp [analyze_spending_pattern, h]

/-- C5 witness: the empty window — zero totals, empty category map, zero
count, no error. -/
theorem analyze_spending_pattern_aggregation_witness :
    (analyze_spending_pattern [] ts0 []).total_nonessential = 0
    ∧ (analyze_spending_pattern [] ts0 []).category_breakdown = []
    ∧ (analyze_spending_pattern [] ts0 []).transaction_count = 0 :=
  (analyze_spending_pattern_aggregation [] ts0 []).2.2.2 rfl

/- ------------------------------------------------------------------ -/
/- C6                                                                 -/
/- ------------------------------------------------------------------ -/

/-- C6: `add_transaction` is total (never raises); when the category string
does not name an enum member case-insensitively, the transaction is stored
with category OTHER and the canonical record is returned. -/
theorem add_transaction_unknown_category_falls_back
    (txs : List Transaction) (amount : ℚ) (merchant category : String)
    (now : Timestamp)
    (h : TransactionCategory.ofName (pyUpper category) = none) :
    (add_transaction txs amount merchant category now).1
        = txs ++ [⟨amount, merchant, .OTHER, now⟩]
    ∧ (add_transaction txs amount merchant category now).2
        = ⟨txs.length, amount, merchant, "other", now⟩ := by
  have hcat : parseCategory category = .OTHER := by
    simp [parseCategory, h]
  constructor
  · simp [add_transaction, hcat]
  · simp [add_transaction, hcat, TransactionCategory.value]

/-- C6 witness: scenario 6 of the spec — the unknown category string "xyz" is
stored as OTHER with no error. -/
theorem add_transaction_unknown_category_falls_back_witness :
    (add_transaction [] 250 "shop" "xyz" ts0).1
        = [⟨250, "shop", .OTHER, ts0⟩]
    ∧ (add_transaction [] 250 "shop" "xyz" ts0).2
        = ⟨0, 250, "shop", "other", ts0⟩ :=
  add_transaction_unknown_category_falls_back [] 250 "shop" "xyz" ts0 (by decide)

/- ------------------------------------------------------------------ -/
/- C7                                                                 -/
/- ------------------------------------------------------------------ -/

/-- C7 counterexample: a transaction with a negative amount is appended to
the ledger and its record returned, with no validation failure — the claim
says a negative amount must be rejected before any state mutation. -/
theorem add_transaction_negative_amount_persisted :
    (add_transaction [] (-500) "Amazon" "shopping" ts0).1
        = [⟨-500, "Amazon", .SHOPPING, ts0⟩]
    ∧ (add_transaction [] (-500) "Amazon" "shopping" ts0).2
        = ⟨0, -500, "Amazon", "shopping", ts0⟩ := by
  have hcat : parseCategory "shopping" = .SHOPPING := by decide
  constructor
  · simp [add_transaction, hcat]
  · simp [add_transaction, hcat, TransactionCategory.value]

/-- C7 amended: `add_transaction` performs no amount validation at all — for
every amount, negative included, the transaction is appended to the ledger
unchanged and its canonical record returned; no ValidationFailure path
exists. -/
theorem add_transaction_no_amount_validation
    (txs : List Transaction) (amount : ℚ) (merchant category : String)
    (now : Timestamp) (h : amount < 0) :
    (add_transaction txs amount merchant category now).1
        = txs ++ [⟨amount, merchant, parseCategory category, now⟩]
    ∧ (add_transaction txs amount merchant category now).2
        = ⟨txs.length, amount, merchant, (parseCategory category).value, now⟩ := by
  exact ⟨rfl, rfl⟩

/-- C7 witness: the negative amount -500. -/
theorem add_transaction_no_amount_validation_witness :
    (add_transaction [] (-500) "Amazon" "food" ts0).1
        = [⟨-500, "Amazon", parseCategory "food", ts0⟩]
    ∧ (add_transaction [] (-500) "Amazon" "food" ts0).2
        = ⟨0, -500, "Amazon", (parseCategory "food").value, ts0⟩ :=
  add_transaction_no_amount_validation [] (-500) "Amazon" "food" ts0 (by norm_num)

/- ------------------------------------------------------------------ -/
/- C8                                                                 -/
/- ------------------------------------------------------------------ -/

/-- C8 counterexample: two consecutive `set_saving_goal` calls leave the user
with two ACTIVE goals, and `get_active_goals` returns both (oldest first) —
the claim says the second call must replace the first, leaving exactly the
most recently set goal. -/
theorem set_saving_goal_does_not_replace :
    (get_active_goals (set_saving_goal (set_saving_goal [] ts0 "A" 1000 none
        (some 500)).1 ts0 "B" 2000 none (some 800)).1).length = 2
    ∧ (get_active_goals (set_saving_goal (set_saving_goal [] ts0 "A" 1000 none
        (some 500)).1 ts0 "B" 2000 none (some 800)).1).map GoalInfo.title
      = ["A", "B"] := by
  constructor <;>
    simp [set_saving_goal, get_active_goals, goalToInfo, List.filter]

/-- C8 amended: `set_saving_goal` appends a fresh ACTIVE goal carrying the
given attributes, never replacing or deactivating existing goals; the list of
active goals grows by the new record at its end (creation order), so after n
set-goal operations the user holds n ACTIVE goals, the most recent last. -/
theorem set_saving_goal_appends_active
    (goals : List Goal) (now : Timestamp) (title : String) (target_amount : ℚ)
    (deadline_days : Option Nat) (budget : Option ℚ) :
    ∃ g : Goal,
      (set_saving_goal goals now title target_amount deadline_days budget).1
          = goals ++ [g]
      ∧ g.status = .ACTIVE
      ∧ g.title = title
      ∧ g.target_amount = target_amount
      ∧ g.month_nonessential_budget = budget
      ∧ get_active_goals
          (set_saving_goal goals now title target_amount deadline_days budget).1
        = get_active_goals goals ++ [goalToInfo g] := by
  refine ⟨_, rfl, rfl, rfl, rfl, rfl, ?_⟩
  simp [set_saving_goal, get_active_goals, List.filter_append]

/- ------------------------------------------------------------------ -/
/- C9                                                                 -/
/- ------------------------------------------------------------------ -/

/-- Helper: `evaluate_purchase` returns the raw remaining-after value on every
branch. -/
theorem evaluate_purchase_remaining (user : MainUser) (tx : Tx) (b : ℚ) :
    (evaluate_purchase user tx b).2.2
      = user.month_nonessential_budget - b - tx.amount := by
  simp only [evaluate_purchase]
  split_ifs <;> rfl

/-- C9: the `/add-transaction` response carries the raw (possibly negative)
remaining value, and hands exactly that raw value to the message builder; the
notification text renders the remaining budget only through the clamp
`max(remaining, 0)` — the message cannot distinguish a negative remaining
from zero — while naming the amount spent, the merchant, the monthly goal
and the tier label. -/
theorem notification_clamps_display_payload_raw
    (user : MainUser) (txs : List Tx) (tx : Tx) :
    ((add_tx user txs tx.amount tx.merchant tx.category tx.timestamp).2.remaining_nonessential_budget_after
        = user.month_nonessential_budget
          - (calc_month_nonessential_spend (txs ++ [tx]) tx.timestamp - tx.amount)
          - tx.amount)
    ∧ ((add_tx user txs tx.amount tx.merchant tx.category tx.timestamp).2.notification_message
        = build_verdict_message user tx
            (add_tx user txs tx.amount tx.merchant tx.category tx.timestamp).2.verdict
            (add_tx user txs tx.amount tx.merchant tx.category tx.timestamp).2.verdict_label
            (add_tx user txs tx.amount tx.merchant tx.category tx.timestamp).2.remaining_nonessential_budget_after)
    ∧ (∀ v l : String, ∀ q : ℚ,
        build_verdict_message user tx v l q
          = build_verdict_message user tx v l (max q 0))
    ∧ (∀ v l : String, ∀ q : ℚ, ∃ s1 s2 s3 s4 s5 : String,
        build_verdict_message user tx v l q
          = s1 ++ fmtAmount tx.amount ++ " on " ++ tx.merchant ++ s2
            ++ fmtAmount user.month_saving_goal ++ s3 ++ l ++ s4
            ++ fmtAmount (max q 0) ++ s5) := by
  refine ⟨?_, rfl, ?_, ?_⟩
  · exact evaluate_purchase_remaining user tx
      (calc_month_nonessential_spend (txs ++ [tx]) tx.timestamp - tx.amount)
  · intro v l q
    simp only [build_verdict_message]
    rw [max_eq_left (le_max_right q 0)]
  · intro v l q
    refine ⟨emojiFor v ++ " You just spent ₹",
      ".\n" ++ "This month you want to save ₹",
      ".\n" ++ "Based on your current spending, this purchase is ",
      ".\n\n" ++ "Approx. non-essential budget left this month after this: ₹",
      ".\n" ++ "If you want, we can adjust something else to keep you on track. 💸",
      ?_⟩
    simp only [build_verdict_message, String.append_assoc]

/- ------------------------------------------------------------------ -/
/- C10                                                                -/
/- ------------------------------------------------------------------ -/

/-- C10: when the monthly budget of the active goal is exactly 0 (with a positive
target and non-negative monthly total), `analyze_spending_pattern` reports
`remaining_budget = None` — indistinguishable from no configured budget —
while `check_budget_status` treats the budget as the number 0, computes
`remaining = 0 - total_spent`, and returns a numeric verdict: ORANGE when
nothing was spent, RED otherwise. -/
theorem zero_budget_read_paths_disagree
    (txs : List Transaction) (now : Timestamp) (goals : List Goal) (g : Goal)
    (hg : find_active_goal goals = some g)
    (hB : g.month_nonessential_budget = some 0)
    (hT : 0 < g.target_amount)
    (hS : 0 ≤ (analyze_spending_pattern txs now goals).total_nonessential) :
    (analyze_spending_pattern txs now goals).remaining_budget = none
    ∧ (check_budget_status txs now goals comfort_zone_threshold).budgetVal
        = some 0
    ∧ (check_budget_status txs now goals comfort_zone_threshold).remainingVal
        = some (0 - (analyze_spending_pattern txs now goals).total_nonessential)
    ∧ (check_budget_status txs now goals comfort_zone_threshold).verdict
        = (if (analyze_spending_pattern txs now goals).total_nonessential = 0
           then "ORANGE" else "RED") := by
  have hth : (0 : ℚ) < comfort_zone_threshold := by
    norm_num [comfort_zone_threshold]
  have hTth : 0 < g.target_amount * comfort_zone_threshold := mul_pos hT hth
  refine ⟨?_, ?_, ?_, ?_⟩
  · simp [analyze_spending_pattern, hg, hB]
  · have hng : ¬ (0 - (analyze_spending_pattern txs now goals).total_nonessential
        ≥ g.target_amount * comfort_zone_threshold) := by
      intro hcon
      linarith
    simp only [check_budget_status, hg, hB, Option.getD_some]
    rw [if_neg hng]
    split_ifs <;> rfl
  · have hng : ¬ (0 - (analyze_spending_pattern txs now goals).total_nonessential
        ≥ g.target_amount * comfort_zone_threshold) := by
      intro hcon
      linarith
    simp only [check_budget_status, hg, hB, Option.getD_some]
    rw [if_neg hng]
    split_ifs <;> rfl
  · have hng : ¬ (0 - (analyze_spending_pattern txs now goals).total_nonessential
        ≥ g.target_amount * comfort_zone_threshold) := by
      intro hcon
      linarith
    simp only [check_budget_status, hg, hB, Option.getD_some]
    rw [if_neg hng]
    rcases eq_or_lt_of_le hS with hz | hpos
    · rw [if_pos (by rw [← hz]; norm_num), if_pos (by rw [← hz])]
      rfl
    · rw [if_neg (by intro hcon; linarith), if_neg (by intro hcon; rw [hcon] at hpos; exact lt_irrefl 0 hpos)]
      rfl

/-- C10 witness: one in-month shopping transaction of 100 against an active
goal with target 10000 and budget exactly 0 — the analysis path reports no
remaining budget, the status path reports budget 0, remaining -100, RED. -/
theorem zero_budget_read_paths_disagree_witness :
    (analyze_spending_pattern [⟨100, "m", .SHOPPING, ⟨2024, 5, 10, 0⟩⟩] ts0
        [goalZ]).remaining_budget = none
    ∧ (check_budget_status [⟨100, "m", .SHOPPING, ⟨2024, 5, 10, 0⟩⟩] ts0 [goalZ]
        comfort_zone_threshold).budgetVal = some 0
    ∧ (check_budget_status [⟨100, "m", .SHOPPING, ⟨2024, 5, 10, 0⟩⟩] ts0 [goalZ]
        comfort_zone_threshold).remainingVal
      = some (0 - (analyze_spending_pattern [⟨100, "m", .SHOPPING, ⟨2024, 5, 10, 0⟩⟩]
          ts0 [goalZ]).total_nonessential)
    ∧ (check_budget_status [⟨100, "m", .SHOPPING, ⟨2024, 5, 10, 0⟩⟩] ts0 [goalZ]
        comfort_zone_threshold).verdict
      = (if (analyze_spending_pattern [⟨100, "m", .SHOPPING, ⟨2024, 5, 10, 0⟩⟩]
          ts0 [goalZ]).total_nonessential = 0 then "ORANGE" else "RED") :=
  zero_budget_read_paths_disagree
    [⟨100, "m", .SHOPPING, ⟨2024, 5, 10, 0⟩⟩] ts0 [goalZ] goalZ
    (by simp [find_active_goal, List.find?, goalZ])
    (by simp [goalZ]) (by simp [goalZ])
    (by norm_num [analyze_spending_pattern, monthTransactions, aggregateStep,
      updateTotals, nonessentialNames, Timestamp.le, Timestamp.monthStart,
      TransactionCategory.value, ts0])
